import Mathlib

/-!
Verification of the Discord rock-paper-scissors bot (`src/app.ts` plus the
command-registration script). The interaction handler registered on
POST /interactions is embedded as a pure function from the parsed request
body, the in-memory `activeGames` record, and the externally supplied
random data (shuffled menu options, emoji) to the HTTP response that is
sent, the updated store, the outbound Discord webhook calls that are
attempted, and the strings logged via console.error.

Library constants from the discord-interactions package, used by app.ts:
InteractionType.PING = 1, APPLICATION_COMMAND = 2, MESSAGE_COMPONENT = 3;
InteractionResponseType.PONG = 1, CHANNEL_MESSAGE_WITH_SOURCE = 4;
InteractionResponseFlags.EPHEMERAL = 64; ButtonStyleTypes.PRIMARY = 1;
MessageComponentTypes.ACTION_ROW = 1, BUTTON = 2, STRING_SELECT = 3.
-/

set_option autoImplicit false

namespace RpsBot

/-- Interface `ActiveGame` from app.ts: `{ id: string; objectName: string }`.
The `id` field holds the challenging user's identifier and `objectName`
the challenger's choice (see the assignment `activeGames[id] = { id: userId, objectName }`). -/
structure ActiveGame where
  id : String
  objectName : String
  deriving DecidableEq

/-- The `data` field of the parsed interaction request body
(`name?`, `custom_id?`, `values?`, `options?`). An absent `values` /
`options` array and a present empty array are observationally equal in
app.ts (only `values?.[0]` / `options?.[0]?.value` are read), so both are
embedded as lists. -/
structure InteractionData where
  name : Option String
  custom_id : Option String
  values : List String
  options : List String
  deriving DecidableEq

/-- The parsed request body of a Discord interaction
(`DiscordInteractionRequest.body` in app.ts). `memberUserId` embeds
`member?.user.id` and `userId` embeds `user?.id`; `messageId` embeds
`message?.id`. -/
structure InteractionBody where
  id : String
  type : Nat
  data : InteractionData
  context : Option Nat
  memberUserId : Option String
  userId : Option String
  token : Option String
  messageId : Option String
  deriving DecidableEq

/-- The in-memory session store `activeGames : Record<string, ActiveGame>`,
embedded as an association list with at most one binding per key observable
through `Store.lookup`. -/
def Store := List (String × ActiveGame)

instance : DecidableEq Store := by
  unfold Store
  infer_instance

/-- Property read `activeGames[k]` (as an Option). -/
def Store.lookup : Store → String → Option ActiveGame
  | [], _ => none
  | (k, v) :: rest, key => if k = key then some v else Store.lookup rest key

/-- Property delete `delete activeGames[k]`. -/
def Store.erase (st : Store) (key : String) : Store :=
  st.filter (fun p => p.1 ≠ key)

/-- Property write `activeGames[k] = v`: silently overwrites any existing
binding of the key. -/
def Store.insert (st : Store) (key : String) (v : ActiveGame) : Store :=
  (key, v) :: Store.erase st key

/-- The Session Store `create` operation: the challenge handler's
`activeGames[id] = { id: userId, objectName }` (app.ts line 104). -/
def Store.create (st : Store) (sessionId challengerId choice : String) : Store :=
  Store.insert st sessionId ⟨challengerId, choice⟩

/-- The Session Store `take` operation: the composite read-and-delete the
select handler performs on the success path (read at app.ts lines 175/195,
`delete activeGames[gameId]` at line 201). -/
def Store.take (st : Store) (key : String) : Option ActiveGame × Store :=
  (Store.lookup st key, Store.erase st key)

/-- JS template-string interpolation of a possibly-undefined value:
an undefined field renders as the string "undefined". -/
def optToString : Option String → String
  | some s => s
  | none => "undefined"

/-- JS `s.startsWith(pre)`, over the underlying character lists. -/
def strStartsWith (s pre : String) : Bool :=
  pre.data.isPrefixOf s.data

/-- JS `componentId?.startsWith(pre)` where the receiver may be undefined:
undefined yields a falsy result. -/
def optStartsWith : Option String → String → Bool
  | none, _ => false
  | some s, pre => strStartsWith s pre

/-- JS `s.replace(pre, "")` under the guard `s.startsWith(pre)`: replacing
the first occurrence of a prefix the string starts with is dropping that
many leading characters. -/
def strDropPre (s pre : String) : String :=
  String.mk (s.data.drop pre.data.length)

/-- WIN / LOSE / TIE relation of the Outcome Resolver, as named in the spec. -/
inductive Relation where
  | WIN
  | LOSE
  | TIE
  deriving DecidableEq

/-- Outcome of the resolver: optional winner plus the relation from the
first argument's point of view. -/
structure Outcome where
  winner : Option String
  relation : Relation
  deriving DecidableEq

/-- Modelled from the spec: the Choice Catalog lives in `game.js`
(`getRPSChoices`), which is not under src/. The spec fixes the canonical
3-choice set rock, paper, scissors with lowercase values. -/
def catalog : List String := ["rock", "paper", "scissors"]

/-- Modelled from the spec: the Beats relation of `game.js` is not under
src/. The spec prescribes the standard cyclic relation on the canonical
3-choice set: rock beats scissors, paper beats rock, scissors beats paper. -/
def beats : String → String → Bool
  | "rock", "scissors" => true
  | "paper", "rock" => true
  | "scissors", "paper" => true
  | _, _ => false

/-- Modelled from the spec: the Outcome Resolver (`getResult` in `game.js`)
is not under src/. Per the spec: if `a == b`, TIE; else consult the Beats
table; exactly one direction holds for a valid catalog, otherwise
`IllFormedCatalog` is a construction-time defect. -/
def resolve (a b : String) : Except String Outcome :=
  if a = b then Except.ok ⟨none, Relation.TIE⟩
  else if beats a b then Except.ok ⟨some a, Relation.WIN⟩
  else if beats b a then Except.ok ⟨some b, Relation.LOSE⟩
  else Except.error "IllFormedCatalog"

/-- Modelled from the spec: `getResult(p1, p2)` of `game.js` is not under
src/. The spec says its output is the human-readable result string naming
the winning user's identifier when a winner exists, or a tie message. -/
def getResult (p1 p2 : ActiveGame) : String :=
  match resolve p1.objectName p2.objectName with
  | Except.ok ⟨some w, _⟩ =>
    (if w = p1.objectName then p1.id else p2.id) ++ " wins!"
  | _ => "It is a tie!"

/-- Outbound Discord webhook call attempted via `DiscordRequest`
(`{endpoint, method: DELETE|PATCH, body?}`). -/
inductive DiscordCall where
  | delete (endpoint : String)
  | patch (endpoint : String) (content : String)
  deriving DecidableEq

/-- Interactive message components of the response payloads built in
app.ts. The numeric MessageComponentTypes tags (ACTION_ROW = 1, BUTTON = 2,
STRING_SELECT = 3) are carried by the constructor identity. -/
inductive Component where
  | button (custom_id label : String) (style : Nat)
  | stringSelect (custom_id : String) (options : List String)
  | actionRow (components : List Component)

/-- The `data` object of a CHANNEL_MESSAGE_WITH_SOURCE response:
content, optional flags (EPHEMERAL = 64), components. -/
structure MessageData where
  content : String
  flags : Option Nat
  components : List Component

/-- The HTTP response the handler produces: `res.send({type: PONG})`,
`res.send({type, data})`, or `res.status(s).json({error})`. -/
inductive HttpResponse where
  | pong
  | send (type : Nat) (data : MessageData)
  | statusJson (status : Nat) (error : String)

/-- Result of one invocation of the interactions handler: the response
sent (none when the handler returns without calling res.send), the store
after the invocation, the webhook calls attempted, and the console.error
log lines. -/
structure HandlerResult where
  response : Option HttpResponse
  store : Store
  calls : List DiscordCall
  logs : List String

/-- A statement of the select handler's try block: either
`return res.send(...)` (which exits the handler) or an awaited
`DiscordRequest` webhook call. -/
inductive Stmt where
  | sendReturn (r : HttpResponse)
  | webhook (c : DiscordCall)

/-- Runs a statement sequence: a `sendReturn` exits immediately, so the
statements after it are never reached and contribute no webhook calls. -/
def runStmts : List Stmt → Option HttpResponse × List DiscordCall
  | [] => (none, [])
  | Stmt.sendReturn r :: _ => (some r, [])
  | Stmt.webhook c :: rest => ((runStmts rest).1, c :: (runStmts rest).2)

/-- The try block of the select branch, statement by statement (app.ts
lines 205-218): `return res.send({type: 4, data: {content: resultStr}})`
followed by the PATCH of the ephemeral message to
`"Nice choice " + getRandomEmoji()`. -/
def selectTry (resultStr endpoint emoji : String) : List Stmt :=
  [Stmt.sendReturn (HttpResponse.send 4 ⟨resultStr, none, []⟩),
   Stmt.webhook (DiscordCall.patch endpoint ("Nice choice " ++ emoji))]

/-- The context rule shared by the challenge and select branches:
`context === 0 ? req.body.member?.user.id : req.body.user?.id`. -/
def extractUserId (req : InteractionBody) : Option String :=
  if req.context = some 0 then req.memberUserId else req.userId

/-- The webhook endpoint string built in both component branches:
`webhooks/${APP_ID}/${token}/messages/${message?.id}` (an absent field
interpolates as "undefined"). -/
def webhookEndpoint (appId : String) (req : InteractionBody) : String :=
  "webhooks/" ++ appId ++ "/" ++ optToString req.token ++ "/messages/" ++
    optToString req.messageId

/-- The POST /interactions handler of app.ts, as a pure function.
Inputs beyond the request body and the store: `appId` is
process.env.APP_ID, `shuffled` is the list returned by the randomized
`getShuffledOptions()` (modelled from the spec as an input, since game.js
is not under src/), `emoji` is `getRandomEmoji()`, and `deleteFails` says
whether the best-effort DELETE webhook call of the accept branch throws
(in which case the catch block logs "Error sending message:").
JS truthiness is embedded faithfully: a check `if (!x)` on a string field
fails for both an absent field and the empty string, and the guard
`name === "challenge" && id` requires a non-empty interaction id. -/
def handleInteraction (appId : String) (req : InteractionBody) (st : Store)
    (shuffled : List String) (emoji : String) (deleteFails : Bool) :
    HandlerResult :=
  -- if (type === InteractionType.PING)
  if req.type = 1 then
    ⟨some HttpResponse.pong, st, [], []⟩
  -- if (type === InteractionType.APPLICATION_COMMAND)
  else if req.type = 2 then
    if req.data.name = some "test" then
      ⟨some (HttpResponse.send 4 ⟨"hello world " ++ emoji, none, []⟩),
        st, [], []⟩
    else if req.data.name = some "challenge" ∧ req.id ≠ "" then
      match extractUserId req, req.data.options.head? with
      | some u, some o =>
        if u = "" ∨ o = "" then
          ⟨some (HttpResponse.statusJson 400 "invalid request"), st, [], []⟩
        else
          ⟨some (HttpResponse.send 4
              ⟨"Rock papers scissors challenge from <@" ++ u ++ ">", none,
               [Component.actionRow
                 [Component.button ("accept_button_" ++ req.id) "Accept" 1]]⟩),
            Store.create st req.id u o, [], []⟩
      | _, _ =>
        ⟨some (HttpResponse.statusJson 400 "invalid request"), st, [], []⟩
    else
      ⟨some (HttpResponse.statusJson 400 "unknown command"), st, [],
        ["unknown command: " ++ optToString req.data.name]⟩
  -- if (type === InteractionType.MESSAGE_COMPONENT)
  else if req.type = 3 then
    if optStartsWith req.data.custom_id "accept_button_" then
      let gameId := strDropPre (optToString req.data.custom_id) "accept_button_"
      ⟨some (HttpResponse.send 4
          ⟨"What is your object of choice?", some 64,
           [Component.actionRow
             [Component.stringSelect ("select_choice_" ++ gameId) shuffled]]⟩),
        st, [DiscordCall.delete (webhookEndpoint appId req)],
        if deleteFails then ["Error sending message:"] else []⟩
    else if optStartsWith req.data.custom_id "select_choice_" then
      let gameId := strDropPre (optToString req.data.custom_id) "select_choice_"
      match Store.lookup st gameId with
      | some game =>
        match extractUserId req with
        | some u =>
          if u = "" then
            ⟨some (HttpResponse.statusJson 400 "invalid user"), st, [], []⟩
          else
            match req.data.values.head? with
            | some o =>
              if o = "" then
                ⟨some (HttpResponse.statusJson 400 "invalid choice"), st, [], []⟩
              else
                let run := runStmts (selectTry (getResult game ⟨u, o⟩)
                  (webhookEndpoint appId req) emoji)
                ⟨run.1, Store.erase st gameId, run.2, []⟩
            | none =>
              ⟨some (HttpResponse.statusJson 400 "invalid choice"), st, [], []⟩
        | none =>
          ⟨some (HttpResponse.statusJson 400 "invalid user"), st, [], []⟩
      | none =>
        -- if (activeGames[gameId]) is falsy: fall through to the bare return
        ⟨none, st, [], []⟩
    else
      -- neither component prefix matches: the block ends with a bare return
      ⟨none, st, [], []⟩
  else
    ⟨some (HttpResponse.statusJson 400 "unknown interaction type"), st, [],
      ["unknown interaction type"]⟩

/-- A select component interaction request body, with the custom id
`select_choice_` followed by the game id. -/
def selectReq (iid gameId : String) (ctx : Option Nat)
    (mu uu : Option String) (vals : List String)
    (tok mid : Option String) : InteractionBody :=
  ⟨iid, 3, ⟨none, some ("select_choice_" ++ gameId), vals, []⟩,
    ctx, mu, uu, tok, mid⟩

/-- An accept component interaction request body with a raw custom id. -/
def acceptReq (iid cid : String) (ctx : Option Nat)
    (mu uu : Option String) (tok mid : Option String) : InteractionBody :=
  ⟨iid, 3, ⟨none, some cid, [], []⟩, ctx, mu, uu, tok, mid⟩

/-- A challenge command invocation request body. -/
def challengeReq (iid : String) (ctx : Option Nat)
    (mu uu : Option String) (opts : List String) : InteractionBody :=
  ⟨iid, 2, ⟨some "challenge", none, [], opts⟩, ctx, mu, uu, none, none⟩

/-! ### Helper lemmas -/

theorem isPrefixOf_append_self {α : Type} [BEq α] [LawfulBEq α]
    (l m : List α) : l.isPrefixOf (l ++ m) = true := by
  induction l with
  | nil => simp [List.isPrefixOf]
  | cons a t ih => simp [List.isPrefixOf, ih]

theorem strStartsWith_append_self (pre g : String) :
    strStartsWith (pre ++ g) pre = true := by
  unfold strStartsWith
  rw [String.data_append]
  exact isPrefixOf_append_self pre.data g.data

theorem strDropPre_append_self (pre g : String) :
    strDropPre (pre ++ g) pre = g := by
  unfold strDropPre
  rw [String.data_append, List.drop_left]

theorem select_not_accept (g : String) :
    strStartsWith ("select_choice_" ++ g) "accept_button_" = false := rfl

theorem lookup_insert_self (st : Store) (k : String) (v : ActiveGame) :
    Store.lookup (Store.insert st k v) k = some v := by
  simp [Store.insert, Store.lookup]

theorem lookup_erase_self (st : Store) (k : String) :
    Store.lookup (Store.erase st k) k = none := by
  induction st with
  | nil => rfl
  | cons p rest ih =>
    by_cases h : p.1 = k
    · simpa [Store.erase, h] using ih
    · simpa [Store.erase, Store.lookup, h] using ih

/-- Classification of the interaction context, from the code comment at
app.ts line 93 ("User ID is in user field for (G)DMs, and member for
servers") together with the branch `context === 0 ? member : user`:
the server (guild) context is the value 0, and any other context value is
a direct-message context. -/
def isDMContext (c : Option Nat) : Bool :=
  !(c = some 0 : Bool)

theorem isDMContext_eq_false (c : Option Nat) :
    isDMContext c = false ↔ c = some 0 := by
  simp [isDMContext]

/-- The context rule exactly as the spec words it (for comparison with
`extractUserId`, which embeds the source): in DM context read the
member.user.id-equivalent field, in any other context read the
user.id-equivalent field. -/
def specContextRuleUserId (req : InteractionBody) : Option String :=
  if isDMContext req.context then req.memberUserId else req.userId

/-! ### Claims -/

/-- Claim C1: after `create(s, challengerId, choice)` (the challenge
handler writing activeGames[s]), the first `take` of s (the select
handler's read-and-delete) returns exactly the created session, and any
subsequent `take` of s returns None: the same session is never resolved
twice. -/
theorem C1_session_taken_once (st : Store) (s cid ch : String) :
    (Store.take (Store.create st s cid ch) s).1 = some ⟨cid, ch⟩ ∧
    (Store.take (Store.take (Store.create st s cid ch) s).2 s).1 = none := by
  constructor
  · exact lookup_insert_self st s ⟨cid, ch⟩
  · exact lookup_erase_self (Store.insert st s ⟨cid, ch⟩) s

/-- Claim C2: for choices a, b of the (spec-modelled) catalog, the
resolver is complementary (if resolve(a,b) reports a as the winner then
resolve(b,a) also reports a as the winner) and reflexive-tie
(resolve(a,a) reports TIE). -/
theorem C2_resolver_complementary (a b : String)
    (ha : a ∈ catalog) (hb : b ∈ catalog) (oa ob : Outcome)
    (hab : resolve a b = Except.ok oa) (hba : resolve b a = Except.ok ob) :
    (oa.winner = some a → ob.winner = some a) ∧
    resolve a a = Except.ok ⟨none, Relation.TIE⟩ := by
  simp only [catalog, List.mem_cons, List.not_mem_nil, or_false] at ha hb
  rcases ha with rfl | rfl | rfl <;> rcases hb with rfl | rfl | rfl <;>
    simp_all [resolve, beats] <;> simp [← hab, ← hba]

theorem C2_resolver_complementary_witness :
    ((Outcome.mk (some "rock") Relation.WIN).winner = some "rock" →
      (Outcome.mk (some "rock") Relation.LOSE).winner = some "rock") ∧
    resolve "rock" "rock" = Except.ok ⟨none, Relation.TIE⟩ :=
  C2_resolver_complementary "rock" "scissors" (by decide) (by decide)
    ⟨some "rock", Relation.WIN⟩ ⟨some "rock", Relation.LOSE⟩ rfl rfl

/-- Claim C3 counterexample: a challenge command in a DM context
(context value 1, a non-guild context per the code comment), with the
member.user.id-equivalent field "A" and the user.id-equivalent field "B".
The claim's rule picks "A" (member), but the code extracts "B" (user) and
creates the session with challenger "B": the spec's context rule is
inverted. -/
theorem C3_context_rule_cex :
    isDMContext (challengeReq "i1" (some 1) (some "A") (some "B") ["rock"]).context
        = true ∧
    specContextRuleUserId (challengeReq "i1" (some 1) (some "A") (some "B") ["rock"])
        = some "A" ∧
    extractUserId (challengeReq "i1" (some 1) (some "A") (some "B") ["rock"])
        = some "B" ∧
    (handleInteraction "app" (challengeReq "i1" (some 1) (some "A") (some "B") ["rock"])
        [] [] "e" false).store = [("i1", ⟨"B", "rock"⟩)] :=
  ⟨rfl, rfl, rfl, rfl⟩

/-- Claim C3 amended: the context rule of both the challenge and the
select branch reads the member.user.id-equivalent field in the server
(guild) context, i.e. context value 0, and the user.id-equivalent field
in any other (DM) context — the opposite of the claim. Conjuncts 1 and 2
state the rule itself; conjuncts 3 and 4 exercise it through the
challenge handler (the user field is ignored in the guild context and the
member field is ignored elsewhere); conjunct 5 exercises the select
handler in a DM context. -/
theorem C3_context_rule_amended (appId iid u ch g : String) (ctx : Option Nat)
    (mu uu : Option String) (game : ActiveGame) (st : Store)
    (sh : List String) (em : String) (df : Bool)
    (hiid : iid ≠ "") (hu : u ≠ "") (hch : ch ≠ "") :
    (isDMContext ctx = true →
      extractUserId ⟨iid, 2, ⟨some "challenge", none, [], [ch]⟩, ctx, mu, uu, none, none⟩
        = uu) ∧
    (isDMContext ctx = false →
      extractUserId ⟨iid, 2, ⟨some "challenge", none, [], [ch]⟩, ctx, mu, uu, none, none⟩
        = mu) ∧
    ((handleInteraction appId (challengeReq iid (some 0) (some u) uu [ch])
        st sh em df).store = Store.create st iid u ch) ∧
    (isDMContext ctx = true →
      (handleInteraction appId (challengeReq iid ctx mu (some u) [ch])
        st sh em df).store = Store.create st iid u ch) ∧
    (isDMContext ctx = true → Store.lookup st g = some game →
      (handleInteraction appId (selectReq iid g ctx mu (some u) [ch] none none)
        st sh em df).response
          = some (HttpResponse.send 4 ⟨getResult game ⟨u, ch⟩, none, []⟩)) := by
  have hdm : ∀ c : Option Nat, isDMContext c = true → ¬(c = some 0) := by
    intro c h
    simp [isDMContext] at h
    exact h
  refine ⟨?_, ?_, ?_, ?_, ?_⟩
  · intro h
    simp [extractUserId, hdm ctx h]
  · intro h
    rw [isDMContext_eq_false] at h
    simp [extractUserId, h]
  · simp [handleInteraction, challengeReq, extractUserId, hiid, hu, hch]
  · intro h
    simp [handleInteraction, challengeReq, extractUserId, hdm ctx h, hiid, hu, hch]
  · intro h hg
    simp [handleInteraction, selectReq, extractUserId, optStartsWith, optToString,
      select_not_accept, strStartsWith_append_self, strDropPre_append_self,
      hdm ctx h, hg, hu, hch, runStmts, selectTry]

theorem C3_context_rule_amended_witness :
    ((isDMContext (some 1) = true →
      extractUserId ⟨"i1", 2, ⟨some "challenge", none, [], ["rock"]⟩, some 1,
        some "A", some "B", none, none⟩ = some "B") ∧
    (isDMContext (some 1) = false →
      extractUserId ⟨"i1", 2, ⟨some "challenge", none, [], ["rock"]⟩, some 1,
        some "A", some "B", none, none⟩ = some "A") ∧
    ((handleInteraction "app" (challengeReq "i1" (some 0) (some "U1") (some "B") ["rock"])
        [("m1", ⟨"U1", "rock"⟩)] [] "e" false).store
      = Store.create [("m1", ⟨"U1", "rock"⟩)] "i1" "U1" "rock") ∧
    (isDMContext (some 1) = true →
      (handleInteraction "app" (challengeReq "i1" (some 1) (some "A") (some "U1") ["rock"])
        [("m1", ⟨"U1", "rock"⟩)] [] "e" false).store
      = Store.create [("m1", ⟨"U1", "rock"⟩)] "i1" "U1" "rock") ∧
    (isDMContext (some 1) = true →
      Store.lookup [("m1", ⟨"U1", "rock"⟩)] "m1" = some ⟨"U1", "rock"⟩ →
      (handleInteraction "app" (selectReq "i1" "m1" (some 1) (some "A") (some "U1")
          ["rock"] none none) [("m1", ⟨"U1", "rock"⟩)] [] "e" false).response
        = some (HttpResponse.send 4
            ⟨getResult ⟨"U1", "rock"⟩ ⟨"U1", "rock"⟩, none, []⟩))) :=
  C3_context_rule_amended "app" "i1" "U1" "rock" "m1" (some 1) (some "A")
    (some "B") ⟨"U1", "rock"⟩ [("m1", ⟨"U1", "rock"⟩)] [] "e" false
    (by decide) (by decide) (by decide)

/-- Claim C4 counterexample: a select interaction for the live session
"m1", in a DM context (context value 1) with the user.id-equivalent field
absent. The handler answers "invalid user", yet the session is still in
the store afterwards: the code validates the responder before deleting
the session (app.ts lines 183-201), so the session is not taken first as
the claim states. -/
theorem C4_taken_before_validation_cex :
    (handleInteraction "app"
        (selectReq "i1" "m1" (some 1) (some "A") none ["paper"] none none)
        [("m1", ⟨"U1", "rock"⟩)] [] "e" false).response
      = some (HttpResponse.statusJson 400 "invalid user") ∧
    Store.lookup (handleInteraction "app"
        (selectReq "i1" "m1" (some 1) (some "A") none ["paper"] none none)
        [("m1", ⟨"U1", "rock"⟩)] [] "e" false).store "m1"
      = some ⟨"U1", "rock"⟩ :=
  ⟨rfl, rfl⟩

/-- Claim C4 amended: in the select handler the session is only read, not
removed, before the responder is validated; after an "invalid user" or
"invalid choice" error the store still contains the sessionId unchanged.
The session is deleted only on the success path, before the result
response is sent. -/
theorem C4_deleted_only_on_success (appId iid g : String) (ctx : Option Nat)
    (mu uu : Option String) (vals : List String) (tok mid : Option String)
    (game : ActiveGame) (st : Store) (sh : List String) (em : String)
    (df : Bool) (hg : Store.lookup st g = some game) :
    ((extractUserId (selectReq iid g ctx mu uu vals tok mid) = none ∨
      extractUserId (selectReq iid g ctx mu uu vals tok mid) = some "") →
      (handleInteraction appId (selectReq iid g ctx mu uu vals tok mid)
          st sh em df).response
          = some (HttpResponse.statusJson 400 "invalid user") ∧
      (handleInteraction appId (selectReq iid g ctx mu uu vals tok mid)
          st sh em df).store = st) ∧
    (∀ u, extractUserId (selectReq iid g ctx mu uu vals tok mid) = some u →
      u ≠ "" → (vals.head? = none ∨ vals.head? = some "") →
      (handleInteraction appId (selectReq iid g ctx mu uu vals tok mid)
          st sh em df).response
          = some (HttpResponse.statusJson 400 "invalid choice") ∧
      (handleInteraction appId (selectReq iid g ctx mu uu vals tok mid)
          st sh em df).store = st) ∧
    (∀ u o, extractUserId (selectReq iid g ctx mu uu vals tok mid) = some u →
      u ≠ "" → vals.head? = some o → o ≠ "" →
      (handleInteraction appId (selectReq iid g ctx mu uu vals tok mid)
          st sh em df).store = Store.erase st g ∧
      Store.lookup (handleInteraction appId (selectReq iid g ctx mu uu vals tok mid)
          st sh em df).store g = none) := by
  refine ⟨?_, ?_, ?_⟩
  · rintro (h | h) <;>
      constructor <;>
      simp [handleInteraction, selectReq, optStartsWith, optToString,
        select_not_accept, strStartsWith_append_self, strDropPre_append_self,
        hg, extractUserId] <;>
      simp [selectReq, extractUserId] at h <;>
      simp [h]
  · intro u hu hne hv
    rcases hv with hv | hv <;>
      constructor <;>
      simp [handleInteraction, selectReq, optStartsWith, optToString,
        select_not_accept, strStartsWith_append_self, strDropPre_append_self,
        hg, extractUserId] <;>
      simp [selectReq, extractUserId] at hu <;>
      simp [hu, hne, hv]
  · intro u o hu hune hv hone
    have : Store.lookup (handleInteraction appId
        (selectReq iid g ctx mu uu vals tok mid) st sh em df).store g
        = Store.lookup (Store.erase st g) g := by
      simp [handleInteraction, selectReq, optStartsWith, optToString,
        select_not_accept, strStartsWith_append_self, strDropPre_append_self,
        hg, extractUserId]
      simp [selectReq, extractUserId] at hu
      simp [hu, hune, hv, hone, runStmts, selectTry]
    refine ⟨?_, ?_⟩
    · simp [handleInteraction, selectReq, optStartsWith, optToString,
        select_not_accept, strStartsWith_append_self, strDropPre_append_self,
        hg, extractUserId]
      simp [selectReq, extractUserId] at hu
      simp [hu, hune, hv, hone, runStmts, selectTry]
    · rw [this]
      exact lookup_erase_self st g

theorem C4_deleted_only_on_success_witness :
    (((extractUserId (selectReq "i1" "m1" (some 1) (some "A") none ["paper"] none none)
          = none ∨
      extractUserId (selectReq "i1" "m1" (some 1) (some "A") none ["paper"] none none)
          = some "") →
      (handleInteraction "app"
          (selectReq "i1" "m1" (some 1) (some "A") none ["paper"] none none)
          [("m1", ⟨"U1", "rock"⟩)] [] "e" false).response
          = some (HttpResponse.statusJson 400 "invalid user") ∧
      (handleInteraction "app"
          (selectReq "i1" "m1" (some 1) (some "A") none ["paper"] none none)
          [("m1", ⟨"U1", "rock"⟩)] [] "e" false).store
          = [("m1", ⟨"U1", "rock"⟩)]) ∧
    (∀ u, extractUserId (selectReq "i1" "m1" (some 1) (some "A") none ["paper"] none none)
          = some u →
      u ≠ "" → ((["paper"] : List String).head? = none ∨
        (["paper"] : List String).head? = some "") →
      (handleInteraction "app"
          (selectReq "i1" "m1" (some 1) (some "A") none ["paper"] none none)
          [("m1", ⟨"U1", "rock"⟩)] [] "e" false).response
          = some (HttpResponse.statusJson 400 "invalid choice") ∧
      (handleInteraction "app"
          (selectReq "i1" "m1" (some 1) (some "A") none ["paper"] none none)
          [("m1", ⟨"U1", "rock"⟩)] [] "e" false).store
          = [("m1", ⟨"U1", "rock"⟩)]) ∧
    (∀ u o, extractUserId (selectReq "i1" "m1" (some 1) (some "A") none ["paper"] none none)
          = some u →
      u ≠ "" → (["paper"] : List String).head? = some o → o ≠ "" →
      (handleInteraction "app"
          (selectReq "i1" "m1" (some 1) (some "A") none ["paper"] none none)
          [("m1", ⟨"U1", "rock"⟩)] [] "e" false).store
          = Store.erase [("m1", ⟨"U1", "rock"⟩)] "m1" ∧
      Store.lookup (handleInteraction "app"
          (selectReq "i1" "m1" (some 1) (some "A") none ["paper"] none none)
          [("m1", ⟨"U1", "rock"⟩)] [] "e" false).store "m1" = none)) :=
  C4_deleted_only_on_success "app" "i1" "m1" (some 1) (some "A") none
    ["paper"] none none ⟨"U1", "rock"⟩ [("m1", ⟨"U1", "rock"⟩)] [] "e" false rfl

/-- Claim C5: a select interaction whose embedded gameId has no live
session produces no response payload, leaves the store unchanged, attempts
no webhook call, and logs no error. -/
theorem C5_unknown_session_silent (appId iid g : String) (ctx : Option Nat)
    (mu uu : Option String) (vals : List String) (tok mid : Option String)
    (st : Store) (sh : List String) (em : String) (df : Bool)
    (hg : Store.lookup st g = none) :
    handleInteraction appId (selectReq iid g ctx mu uu vals tok mid)
      st sh em df = ⟨none, st, [], []⟩ := by
  simp [handleInteraction, selectReq, optStartsWith, optToString,
    select_not_accept, strStartsWith_append_self, strDropPre_append_self, hg]

theorem C5_unknown_session_silent_witness :
    handleInteraction "app" (selectReq "i1" "m1" (some 0) (some "U2") none
      ["paper"] none none) [] [] "e" false = ⟨none, [], [], []⟩ :=
  C5_unknown_session_silent "app" "i1" "m1" (some 0) (some "U2") none
    ["paper"] none none [] [] "e" false rfl

/-- Claim C6: a challenge command whose acting user resolves to U1, with
choice "rock" and interaction id "m1", creates the session keyed "m1"
with challenger U1 and choice "rock", and responds with a public message
whose accept button has custom id "accept_button_m1". -/
theorem C6_challenge_creates_session (appId U1 : String) (ctx : Option Nat)
    (mu uu : Option String) (st : Store) (sh : List String) (em : String)
    (df : Bool)
    (hU : extractUserId (challengeReq "m1" ctx mu uu ["rock"]) = some U1)
    (hU1 : U1 ≠ "") :
    (handleInteraction appId (challengeReq "m1" ctx mu uu ["rock"])
        st sh em df).store = Store.create st "m1" U1 "rock" ∧
    Store.lookup (handleInteraction appId (challengeReq "m1" ctx mu uu ["rock"])
        st sh em df).store "m1" = some ⟨U1, "rock"⟩ ∧
    (handleInteraction appId (challengeReq "m1" ctx mu uu ["rock"])
        st sh em df).response
      = some (HttpResponse.send 4
          ⟨"Rock papers scissors challenge from <@" ++ U1 ++ ">", none,
           [Component.actionRow
             [Component.button "accept_button_m1" "Accept" 1]]⟩) := by
  have hres : (handleInteraction appId (challengeReq "m1" ctx mu uu ["rock"])
      st sh em df) = ⟨some (HttpResponse.send 4
        ⟨"Rock papers scissors challenge from <@" ++ U1 ++ ">", none,
         [Component.actionRow
           [Component.button ("accept_button_" ++ "m1") "Accept" 1]]⟩),
      Store.create st "m1" U1 "rock", [], []⟩ := by
    simp only [challengeReq] at hU
    simp [handleInteraction, challengeReq, hU, hU1]
  rw [hres]
  refine ⟨rfl, lookup_insert_self st "m1" ⟨U1, "rock"⟩, rfl⟩

theorem C6_challenge_creates_session_witness :
    (handleInteraction "app" (challengeReq "m1" (some 0) (some "U1") none ["rock"])
        [] [] "e" false).store = Store.create [] "m1" "U1" "rock" ∧
    Store.lookup (handleInteraction "app"
        (challengeReq "m1" (some 0) (some "U1") none ["rock"])
        [] [] "e" false).store "m1" = some ⟨"U1", "rock"⟩ ∧
    (handleInteraction "app" (challengeReq "m1" (some 0) (some "U1") none ["rock"])
        [] [] "e" false).response
      = some (HttpResponse.send 4
          ⟨"Rock papers scissors challenge from <@" ++ "U1" ++ ">", none,
           [Component.actionRow
             [Component.button "accept_button_m1" "Accept" 1]]⟩) :=
  C6_challenge_creates_session "app" "U1" (some 0) (some "U1") none
    [] [] "e" false rfl (by decide)

/-- Claim C7: an accept interaction with custom id "accept_button_m1"
responds with an ephemeral menu (flags 64) whose custom id is
"select_choice_m1" containing the shuffled options, which cover all
catalog choices when the shuffle is a permutation of the catalog (the
spec-modelled contract of getShuffledOptions); the store is left
unchanged; and a failure of the best-effort DELETE of the original public
message changes only the log, never the response, the attempted calls, or
the store. -/
theorem C7_accept_menu (appId iid : String) (ctx : Option Nat)
    (mu uu tok mid : Option String) (st : Store) (sh : List String)
    (em : String) (hsh : sh.Perm catalog) :
    (handleInteraction appId (acceptReq iid "accept_button_m1" ctx mu uu tok mid)
        st sh em true).response
      = some (HttpResponse.send 4
          ⟨"What is your object of choice?", some 64,
           [Component.actionRow [Component.stringSelect "select_choice_m1" sh]]⟩) ∧
    catalog ⊆ sh ∧
    (handleInteraction appId (acceptReq iid "accept_button_m1" ctx mu uu tok mid)
        st sh em true).store = st ∧
    (handleInteraction appId (acceptReq iid "accept_button_m1" ctx mu uu tok mid)
        st sh em false).store = st ∧
    (handleInteraction appId (acceptReq iid "accept_button_m1" ctx mu uu tok mid)
        st sh em false).response
      = (handleInteraction appId (acceptReq iid "accept_button_m1" ctx mu uu tok mid)
        st sh em true).response ∧
    (handleInteraction appId (acceptReq iid "accept_button_m1" ctx mu uu tok mid)
        st sh em false).calls
      = (handleInteraction appId (acceptReq iid "accept_button_m1" ctx mu uu tok mid)
        st sh em true).calls ∧
    (handleInteraction appId (acceptReq iid "accept_button_m1" ctx mu uu tok mid)
        st sh em true).logs = ["Error sending message:"] ∧
    (handleInteraction appId (acceptReq iid "accept_button_m1" ctx mu uu tok mid)
        st sh em false).logs = [] := by
  have h1 : optStartsWith (some "accept_button_m1") "accept_button_" = true := rfl
  have h2 : strDropPre (optToString (some "accept_button_m1")) "accept_button_"
      = "m1" := rfl
  have h3 : ("select_choice_" ++ "m1" : String) = "select_choice_m1" := rfl
  refine ⟨?_, hsh.symm.subset, ?_, ?_, ?_, ?_, ?_, ?_⟩ <;>
    simp [handleInteraction, acceptReq, h1, h2, h3]

theorem C7_accept_menu_witness :
    ((handleInteraction "app" (acceptReq "i1" "accept_button_m1" (some 0)
        (some "U2") none (some "tok") (some "msg"))
        [("m1", ⟨"U1", "rock"⟩)] ["paper", "scissors", "rock"] "e" true).response
      = some (HttpResponse.send 4
          ⟨"What is your object of choice?", some 64,
           [Component.actionRow [Component.stringSelect "select_choice_m1"
             ["paper", "scissors", "rock"]]]⟩) ∧
    catalog ⊆ ["paper", "scissors", "rock"] ∧
    (handleInteraction "app" (acceptReq "i1" "accept_button_m1" (some 0)
        (some "U2") none (some "tok") (some "msg"))
        [("m1", ⟨"U1", "rock"⟩)] ["paper", "scissors", "rock"] "e" true).store
      = [("m1", ⟨"U1", "rock"⟩)] ∧
    (handleInteraction "app" (acceptReq "i1" "accept_button_m1" (some 0)
        (some "U2") none (some "tok") (some "msg"))
        [("m1", ⟨"U1", "rock"⟩)] ["paper", "scissors", "rock"] "e" false).store
      = [("m1", ⟨"U1", "rock"⟩)] ∧
    (handleInteraction "app" (acceptReq "i1" "accept_button_m1" (some 0)
        (some "U2") none (some "tok") (some "msg"))
        [("m1", ⟨"U1", "rock"⟩)] ["paper", "scissors", "rock"] "e" false).response
      = (handleInteraction "app" (acceptReq "i1" "accept_button_m1" (some 0)
        (some "U2") none (some "tok") (some "msg"))
        [("m1", ⟨"U1", "rock"⟩)] ["paper", "scissors", "rock"] "e" true).response ∧
    (handleInteraction "app" (acceptReq "i1" "accept_button_m1" (some 0)
        (some "U2") none (some "tok") (some "msg"))
        [("m1", ⟨"U1", "rock"⟩)] ["paper", "scissors", "rock"] "e" false).calls
      = (handleInteraction "app" (acceptReq "i1" "accept_button_m1" (some 0)
        (some "U2") none (some "tok") (some "msg"))
        [("m1", ⟨"U1", "rock"⟩)] ["paper", "scissors", "rock"] "e" true).calls ∧
    (handleInteraction "app" (acceptReq "i1" "accept_button_m1" (some 0)
        (some "U2") none (some "tok") (some "msg"))
        [("m1", ⟨"U1", "rock"⟩)] ["paper", "scissors", "rock"] "e" true).logs
      = ["Error sending message:"] ∧
    (handleInteraction "app" (acceptReq "i1" "accept_button_m1" (some 0)
        (some "U2") none (some "tok") (some "msg"))
        [("m1", ⟨"U1", "rock"⟩)] ["paper", "scissors", "rock"] "e" false).logs
      = []) :=
  C7_accept_menu "app" "i1" (some 0) (some "U2") none (some "tok") (some "msg")
    [("m1", ⟨"U1", "rock"⟩)] ["paper", "scissors", "rock"] "e" (by decide)

/-- Claim C8 counterexample: a component interaction whose custom_id
("foo") has neither the accept nor the select prefix produces no response
at all — the MESSAGE_COMPONENT block ends in a bare return — rather than
the client-error payload the claim requires. -/
theorem C8_unknown_component_silent_cex :
    (handleInteraction "app" ⟨"i1", 3, ⟨none, some "foo", [], []⟩,
        none, none, none, none, none⟩ [] [] "e" false).response = none :=
  rfl

/-- Claim C8 amended: an unknown interaction type yields the 400
"unknown interaction type" payload, and an unknown command name (or a
challenge command with a falsy id) yields the 400 "unknown command"
payload; but a component interaction whose custom_id matches neither
prefix is a silent no-op with no response payload. -/
theorem C8_unknown_branches (appId : String) (req : InteractionBody)
    (st : Store) (sh : List String) (em : String) (df : Bool) :
    (req.type ≠ 1 → req.type ≠ 2 → req.type ≠ 3 →
      handleInteraction appId req st sh em df
        = ⟨some (HttpResponse.statusJson 400 "unknown interaction type"),
            st, [], ["unknown interaction type"]⟩) ∧
    (req.type = 2 → req.data.name ≠ some "test" →
      ¬(req.data.name = some "challenge" ∧ req.id ≠ "") →
      handleInteraction appId req st sh em df
        = ⟨some (HttpResponse.statusJson 400 "unknown command"), st, [],
            ["unknown command: " ++ optToString req.data.name]⟩) ∧
    (req.type = 3 →
      optStartsWith req.data.custom_id "accept_button_" = false →
      optStartsWith req.data.custom_id "select_choice_" = false →
      handleInteraction appId req st sh em df = ⟨none, st, [], []⟩) := by
  refine ⟨?_, ?_, ?_⟩
  · intro h1 h2 h3
    simp [handleInteraction, h1, h2, h3]
  · intro h1 h2 h3
    simp [handleInteraction, h1, h2, h3]
  · intro h1 h2 h3
    simp [handleInteraction, h1, h2, h3]

theorem C8_unknown_branches_witness :
    (((7 : Nat) ≠ 1 → (7 : Nat) ≠ 2 → (7 : Nat) ≠ 3 →
      handleInteraction "app" ⟨"i1", 7, ⟨none, none, [], []⟩,
          none, none, none, none, none⟩ [] [] "e" false
        = ⟨some (HttpResponse.statusJson 400 "unknown interaction type"),
            [], [], ["unknown interaction type"]⟩) ∧
    ((7 : Nat) = 2 →
      (⟨none, none, [], []⟩ : InteractionData).name ≠ some "test" →
      ¬((⟨none, none, [], []⟩ : InteractionData).name = some "challenge" ∧
        ("i1" : String) ≠ "") →
      handleInteraction "app" ⟨"i1", 7, ⟨none, none, [], []⟩,
          none, none, none, none, none⟩ [] [] "e" false
        = ⟨some (HttpResponse.statusJson 400 "unknown command"), [], [],
            ["unknown command: " ++
              optToString (⟨none, none, [], []⟩ : InteractionData).name]⟩) ∧
    ((7 : Nat) = 3 →
      optStartsWith (⟨none, none, [], []⟩ : InteractionData).custom_id
        "accept_button_" = false →
      optStartsWith (⟨none, none, [], []⟩ : InteractionData).custom_id
        "select_choice_" = false →
      handleInteraction "app" ⟨"i1", 7, ⟨none, none, [], []⟩,
          none, none, none, none, none⟩ [] [] "e" false = ⟨none, [], [], []⟩)) :=
  C8_unknown_branches "app" ⟨"i1", 7, ⟨none, none, [], []⟩,
    none, none, none, none, none⟩ [] [] "e" false

/-- Claim C9: the follow-up PATCH edit placed after
`return res.send(...)` in the select branch's try block is unreachable:
running the try block produces the primary result response and an empty
call list, and no invocation of the handler on any input ever attempts a
PATCH webhook call. -/
theorem C9_patch_unreachable (rs ep emoji appId : String)
    (req : InteractionBody) (st : Store) (sh : List String) (em : String)
    (df : Bool) (e b : String) :
    runStmts (selectTry rs ep emoji)
      = (some (HttpResponse.send 4 ⟨rs, none, []⟩), []) ∧
    DiscordCall.patch e b ∉ (handleInteraction appId req st sh em df).calls := by
  constructor
  · rfl
  · unfold handleInteraction
    repeat' split <;> first
      | simp [runStmts, selectTry]
      | rfl
      | decide
      | skip

/-- Claim C10: the accept branch never consults the session store: the
store passes through unchanged, the response is the ephemeral choice menu
bound to the embedded gameId even for a gameId with no session, and the
response and attempted calls do not depend on the store contents. -/
theorem C10_accept_ignores_store (appId iid g : String) (ctx : Option Nat)
    (mu uu tok mid : Option String) (st st2 : Store) (sh : List String)
    (em : String) (df : Bool) :
    (handleInteraction appId (acceptReq iid ("accept_button_" ++ g) ctx mu uu tok mid)
        st sh em df).store = st ∧
    (handleInteraction appId (acceptReq iid ("accept_button_" ++ g) ctx mu uu tok mid)
        st sh em df).response
      = some (HttpResponse.send 4
          ⟨"What is your object of choice?", some 64,
           [Component.actionRow
             [Component.stringSelect ("select_choice_" ++ g) sh]]⟩) ∧
    (handleInteraction appId (acceptReq iid ("accept_button_" ++ g) ctx mu uu tok mid)
        st2 sh em df).response
      = (handleInteraction appId (acceptReq iid ("accept_button_" ++ g) ctx mu uu tok mid)
        st sh em df).response ∧
    (handleInteraction appId (acceptReq iid ("accept_button_" ++ g) ctx mu uu tok mid)
        st2 sh em df).calls
      = (handleInteraction appId (acceptReq iid ("accept_button_" ++ g) ctx mu uu tok mid)
        st sh em df).calls := by
  refine ⟨?_, ?_, ?_, ?_⟩ <;>
    simp [handleInteraction, acceptReq, optStartsWith, optToString,
      strStartsWith_append_self, strDropPre_append_self]

end RpsBot
